import Mathlib

/-
Verification of the rpc transport layer (rpc/transport.go) of go-capnproto2:
the StreamTransport close-mask state machine, the NewMessage send/cancel
functions, and the generated wire-envelope accessors (Message, Call, Return,
Finish, MessageTarget, PromisedAnswer, CapDescriptor and friends).

The transport functions are shallowly embedded as pure state transformers on
an explicit transport state, returning the Go result together with the new
state and the trace of stream-level operations performed.  The generated
accessor code is embedded over a model of the underlying structured-buffer
primitives (capnp.Struct bit/uint/pointer access), which live outside the
rpc package and are modelled from the specification.
-/

namespace Capnp

/-- An error value as returned by Go functions: `io n` stands for a distinct
underlying I/O error, `msg s` for an error created with errors.New(s). -/
inductive Err where
  | io : Nat → Err
  | msg : String → Err
deriving DecidableEq

/-- The capabilities and close behavior of the underlying io.ReadWriteCloser
handed to NewStreamTransport: which optional interfaces it implements
(SetWriteDeadline, CloseRead, CloseWrite), and the error each close-like
call would return (none = nil error). -/
structure Stream where
  hasWriteDeadline : Bool
  hasCloseWrite : Bool
  hasCloseRead : Bool
  closeWriteErr : Option Err
  closeReadErr : Option Err
  closeErr : Option Err
deriving DecidableEq

/-- StreamTransport state: the underlying stream plus the `closes` mask
(uint8; bit 0 = send closed, bit 1 = receive closed), from
rpc/transport.go. -/
structure StreamTransport where
  stream : Stream
  closes : Nat
deriving DecidableEq

/-- NewStreamTransport: fresh transport over rwc with a zero close mask. -/
def newStreamTransport (st : Stream) : StreamTransport :=
  { stream := st, closes := 0 }

/-- Stream-level operations a close call can perform on the underlying
stream: CloseWrite, CloseRead, the final full Close, and the
signalReceiver channel close used when no CloseRead method exists. -/
inductive Ev where
  | closeWrite
  | closeRead
  | closeFull
  | recvSignalClose
deriving DecidableEq

/-- Result of a Go close call: either a returned error value (none = nil),
or a runtime panic (nil interface dereference). -/
inductive CloseResult where
  | ret : Option Err → CloseResult
  | panic : CloseResult
deriving DecidableEq

/-- The error string of a second CloseSend. -/
def sendClosedErr : Err := Err.msg "rpc stream transport: send already closed"

/-- The error string of a second CloseRecv. -/
def recvClosedErr : Err := Err.msg "rpc stream transport: receive already closed"

/-- StreamTransport.CloseSend (rpc/transport.go lines 113-135): checks bit 0
of the close mask, sets it, calls s.cw.CloseWrite() unconditionally (a
panic when the stream has no CloseWrite method, since s.cw is then a nil
interface), and performs the final Close when both bits are set, returning
the Close error in preference to the CloseWrite error. -/
def closeSend (t : StreamTransport) : CloseResult × StreamTransport × List Ev :=
  if t.closes &&& 1 = 1 then
    (CloseResult.ret (some sendClosedErr), t, [])
  else
    let closes := t.closes ||| 1
    let done := closes = 3
    let t' : StreamTransport := { t with closes := closes }
    if t.stream.hasCloseWrite then
      let werr := t.stream.closeWriteErr
      if done then
        let cerr := t.stream.closeErr
        (CloseResult.ret (match cerr with
          | some e => some e
          | none => werr), t', [Ev.closeWrite, Ev.closeFull])
      else
        (CloseResult.ret werr, t', [Ev.closeWrite])
    else
      (CloseResult.panic, t', [])

/-- recv.CloseRecv(): closerReceiver calls CloseRead on the stream when the
stream has one (rpc/transport.go lines 186-188); otherwise signalReceiver
closes its channel and returns nil (lines 223-226). -/
def recvCloseRecv (st : Stream) : Option Err × List Ev :=
  if st.hasCloseRead then
    (st.closeReadErr, [Ev.closeRead])
  else
    (none, [Ev.recvSignalClose])

/-- StreamTransport.CloseRecv (rpc/transport.go lines 147-169): checks bit 1
of the close mask, sets it, calls s.recv.CloseRecv(), and performs the
final Close when both bits are set, returning the Close error in
preference to the receiver-close error. -/
def closeRecv (t : StreamTransport) : CloseResult × StreamTransport × List Ev :=
  if t.closes &&& 2 = 2 then
    (CloseResult.ret (some recvClosedErr), t, [])
  else
    let closes := t.closes ||| 2
    let done := closes = 3
    let t' : StreamTransport := { t with closes := closes }
    let r := recvCloseRecv t.stream
    if done then
      (CloseResult.ret (match t.stream.closeErr with
        | some e => some e
        | none => r.1), t', r.2 ++ [Ev.closeFull])
    else
      (CloseResult.ret r.1, t', r.2)

/-- Actions performed by the send (commit) closure of NewMessage: setting
the write deadline on the underlying stream, and encoding the frame. -/
inductive SendEv where
  | setWriteDeadline : Nat → SendEv
  | encode
deriving DecidableEq

/-- The body of the send closure returned by StreamTransport.NewMessage
(rpc/transport.go lines 95-105): if the stream has a SetWriteDeadline
method, set the deadline from ctx (the exact deadline when ctx carries
one, the zero time otherwise), then encode the message.  A deadline is
modelled as a Nat with 0 the zero time; the context carries an optional
deadline. -/
def sendActions (t : StreamTransport) (ctxDeadline : Option Nat) : List SendEv :=
  (if t.stream.hasWriteDeadline then
    match ctxDeadline with
    | some d => [SendEv.setWriteDeadline d]
    | none => [SendEv.setWriteDeadline 0]
  else []) ++ [SendEv.encode]

/-- What StreamTransport.NewMessage returns: the error value, the actions
its send closure would perform, and the effect of its cancel closure on
the transport (resulting state and stream-level operations). -/
structure NewMessageResult where
  err : Option Err
  send : List SendEv
  cancelState : StreamTransport
  cancelEvents : List Ev

/-- StreamTransport.NewMessage (rpc/transport.go lines 91-108): the errors
of capnp.NewMessage and NewRootMessage (here `allocErr` and `rootErr`) are
discarded with blank identifiers, the returned error is the literal nil,
and cancel is the empty closure func() {}. -/
def newMessage (t : StreamTransport) (ctxDeadline : Option Nat)
    (allocErr rootErr : Option Err) : NewMessageResult :=
  { err := none
    send := sendActions t ctxDeadline
    cancelState := t
    cancelEvents := [] }

/-- Modelled from the spec: bit-field read of the structured-buffer
primitive (capnp.Struct, outside the rpc package).  A struct data section
is a little-endian integer; `getBits off w d` reads the `w` bits starting
at bit offset `off`. -/
def getBits (off w d : Nat) : Nat := d / 2 ^ off % 2 ^ w

/-- Modelled from the spec: bit-field write of the structured-buffer
primitive.  `setBits off w v d` replaces the `w` bits at bit offset `off`
of `d` with the low `w` bits of `v`. -/
def setBits (off w v d : Nat) : Nat :=
  d / 2 ^ (off + w) * 2 ^ (off + w) + v % 2 ^ w * 2 ^ off + d % 2 ^ off

/-- Modelled from the spec: a decoded pointer of the structured buffer
(capnp.Ptr, outside the rpc package): null, a struct (data section as a
little-endian integer plus a pointer section), or a composite list of
structs.  The arena is represented by the tree the pointers span. -/
inductive Ptr where
  | null : Ptr
  | structP : Nat → List Ptr → Ptr
  | listP : List Ptr → Ptr

/-- Modelled from the spec: capnp.Ptr.IsValid — a non-null pointer. -/
def Ptr.isValid : Ptr → Bool
  | Ptr.null => false
  | _ => true

/-- Data section of a struct view; a null or list pointer reads as the
zero-valued struct. -/
def sData : Ptr → Nat
  | Ptr.structP d _ => d
  | _ => 0

/-- Pointer section of a struct view; empty for a non-struct pointer. -/
def sPtrs : Ptr → List Ptr
  | Ptr.structP _ ps => ps
  | _ => []

/-- Modelled from the spec: capnp.Struct.Bit (bit offset in bits).  Reading
past the data section yields false. -/
def sBit (s : Ptr) (n : Nat) : Bool := getBits n 1 (sData s) == 1

/-- Modelled from the spec: capnp.Struct.SetBit. -/
def sSetBit (s : Ptr) (n : Nat) (v : Bool) : Ptr :=
  Ptr.structP (setBits n 1 (if v then 1 else 0) (sData s)) (sPtrs s)

/-- Modelled from the spec: capnp.Struct.Uint16 (byte offset). -/
def sUint16 (s : Ptr) (off : Nat) : Nat := getBits (8 * off) 16 (sData s)

/-- Modelled from the spec: capnp.Struct.SetUint16. -/
def sSetUint16 (s : Ptr) (off v : Nat) : Ptr :=
  Ptr.structP (setBits (8 * off) 16 v (sData s)) (sPtrs s)

/-- Modelled from the spec: capnp.Struct.Uint32 (byte offset). -/
def sUint32 (s : Ptr) (off : Nat) : Nat := getBits (8 * off) 32 (sData s)

/-- Modelled from the spec: capnp.Struct.SetUint32. -/
def sSetUint32 (s : Ptr) (off v : Nat) : Ptr :=
  Ptr.structP (setBits (8 * off) 32 v (sData s)) (sPtrs s)

/-- Modelled from the spec: capnp.Struct.Uint64 (byte offset). -/
def sUint64 (s : Ptr) (off : Nat) : Nat := getBits (8 * off) 64 (sData s)

/-- Modelled from the spec: capnp.Struct.SetUint64. -/
def sSetUint64 (s : Ptr) (off v : Nat) : Ptr :=
  Ptr.structP (setBits (8 * off) 64 v (sData s)) (sPtrs s)

/-- Modelled from the spec: capnp.Struct.Ptr(i) — read pointer slot i
(null when absent or out of range). -/
def sPtr (s : Ptr) (i : Nat) : Ptr := (sPtrs s).getD i Ptr.null

/-- Modelled from the spec: capnp.Struct.SetPtr(i, v). -/
def sSetPtr (s : Ptr) (i : Nat) (v : Ptr) : Ptr :=
  Ptr.structP (sData s) ((sPtrs s).set i v)

/-- Modelled from the spec: whether pointer slot i holds a valid pointer
(the Has accessors read Ptr(i) and test IsValid; the decode error is nil
on a well-formed message). -/
def sHasPtr (s : Ptr) (i : Nat) : Bool := (sPtr s i).isValid

/- Freshly allocated structs (the generated New functions allocate a zeroed
struct of the type's ObjectSize): data section 0 and all pointer slots
null. -/

/-- NewMessage(seg): ObjectSize DataSize 8, PointerCount 1 (zeroed). -/
def newMessageStruct : Ptr := Ptr.structP 0 [Ptr.null]

/-- NewCall(seg): ObjectSize DataSize 24, PointerCount 3 (zeroed). -/
def newCallStruct : Ptr := Ptr.structP 0 [Ptr.null, Ptr.null, Ptr.null]

/-- NewReturn(seg): ObjectSize DataSize 16, PointerCount 1 (zeroed). -/
def newReturnStruct : Ptr := Ptr.structP 0 [Ptr.null]

/-- NewFinish(seg): ObjectSize DataSize 8, PointerCount 0 (zeroed). -/
def newFinishStruct : Ptr := Ptr.structP 0 []

/-- NewMessageTarget(seg): ObjectSize DataSize 8, PointerCount 1 (zeroed). -/
def newMessageTargetStruct : Ptr := Ptr.structP 0 [Ptr.null]

/-- NewPromisedAnswer(seg): ObjectSize DataSize 8, PointerCount 1 (zeroed). -/
def newPromisedAnswerStruct : Ptr := Ptr.structP 0 [Ptr.null]

/-- NewPromisedAnswer_Op(seg): ObjectSize DataSize 8, PointerCount 0. -/
def newOpStruct : Ptr := Ptr.structP 0 []

/- Generated accessors from rpc/transport.go.  Each Lean definition is the
direct transcription of the Go method of the same name; union-branch
setters write the discriminant with SetUint16 first and then the payload,
exactly as the Go source does. -/

/-- Message.Which: the 16-bit union discriminant at data offset 0. -/
def Message_Which (s : Ptr) : Nat := sUint16 s 0

/-- Message.Call: reads pointer 0 as a Call struct. -/
def Message_Call (s : Ptr) : Ptr := sPtr s 0

/-- Message.SetCall: SetUint16(0, 2) then SetPtr(0, v). -/
def Message_SetCall (s v : Ptr) : Ptr := sSetPtr (sSetUint16 s 0 2) 0 v

/-- Message.HasUnimplemented: false unless the discriminant is 0, then
pointer-0 validity. -/
def Message_HasUnimplemented (s : Ptr) : Bool :=
  if sUint16 s 0 ≠ 0 then false else sHasPtr s 0

/-- Message.HasAbort (tag 1). -/
def Message_HasAbort (s : Ptr) : Bool :=
  if sUint16 s 0 ≠ 1 then false else sHasPtr s 0

/-- Message.HasBootstrap (tag 8). -/
def Message_HasBootstrap (s : Ptr) : Bool :=
  if sUint16 s 0 ≠ 8 then false else sHasPtr s 0

/-- Message.HasCall (tag 2). -/
def Message_HasCall (s : Ptr) : Bool :=
  if sUint16 s 0 ≠ 2 then false else sHasPtr s 0

/-- Message.HasReturn (tag 3). -/
def Message_HasReturn (s : Ptr) : Bool :=
  if sUint16 s 0 ≠ 3 then false else sHasPtr s 0

/-- Message.HasFinish (tag 4). -/
def Message_HasFinish (s : Ptr) : Bool :=
  if sUint16 s 0 ≠ 4 then false else sHasPtr s 0

/-- Message.HasResolve (tag 5). -/
def Message_HasResolve (s : Ptr) : Bool :=
  if sUint16 s 0 ≠ 5 then false else sHasPtr s 0

/-- Message.HasRelease (tag 6). -/
def Message_HasRelease (s : Ptr) : Bool :=
  if sUint16 s 0 ≠ 6 then false else sHasPtr s 0

/-- Message.HasDisembargo (tag 13). -/
def Message_HasDisembargo (s : Ptr) : Bool :=
  if sUint16 s 0 ≠ 13 then false else sHasPtr s 0

/-- Message.HasObsoleteSave (tag 7). -/
def Message_HasObsoleteSave (s : Ptr) : Bool :=
  if sUint16 s 0 ≠ 7 then false else sHasPtr s 0

/-- Message.HasObsoleteDelete (tag 9). -/
def Message_HasObsoleteDelete (s : Ptr) : Bool :=
  if sUint16 s 0 ≠ 9 then false else sHasPtr s 0

/-- Message.HasProvide (tag 10). -/
def Message_HasProvide (s : Ptr) : Bool :=
  if sUint16 s 0 ≠ 10 then false else sHasPtr s 0

/-- Message.HasAccept (tag 11). -/
def Message_HasAccept (s : Ptr) : Bool :=
  if sUint16 s 0 ≠ 11 then false else sHasPtr s 0

/-- Message.HasJoin (tag 12). -/
def Message_HasJoin (s : Ptr) : Bool :=
  if sUint16 s 0 ≠ 12 then false else sHasPtr s 0

/-- Call.QuestionId: Uint32 at data offset 0. -/
def Call_QuestionId (s : Ptr) : Nat := sUint32 s 0

/-- Call.SetQuestionId. -/
def Call_SetQuestionId (s : Ptr) (v : Nat) : Ptr := sSetUint32 s 0 v

/-- Call.InterfaceId: Uint64 at data offset 8. -/
def Call_InterfaceId (s : Ptr) : Nat := sUint64 s 8

/-- Call.SetInterfaceId. -/
def Call_SetInterfaceId (s : Ptr) (v : Nat) : Ptr := sSetUint64 s 8 v

/-- Call.MethodId: Uint16 at data offset 4. -/
def Call_MethodId (s : Ptr) : Nat := sUint16 s 4

/-- Call.SetMethodId. -/
def Call_SetMethodId (s : Ptr) (v : Nat) : Ptr := sSetUint16 s 4 v

/-- Call.Target: reads pointer 0 as a MessageTarget struct. -/
def Call_Target (s : Ptr) : Ptr := sPtr s 0

/-- Call.SetTarget: SetPtr(0, v). -/
def Call_SetTarget (s v : Ptr) : Ptr := sSetPtr s 0 v

/-- MessageTarget.Which: discriminant at data offset 4. -/
def MessageTarget_Which (s : Ptr) : Nat := sUint16 s 4

/-- MessageTarget.ImportedCap: Uint32 at data offset 0. -/
def MessageTarget_ImportedCap (s : Ptr) : Nat := sUint32 s 0

/-- MessageTarget.SetImportedCap: SetUint16(4, 0) then SetUint32(0, v). -/
def MessageTarget_SetImportedCap (s : Ptr) (v : Nat) : Ptr :=
  sSetUint32 (sSetUint16 s 4 0) 0 v

/-- Return.Which: discriminant at data offset 6. -/
def Return_Which (s : Ptr) : Nat := sUint16 s 6

/-- Return.AnswerId: Uint32 at data offset 0. -/
def Return_AnswerId (s : Ptr) : Nat := sUint32 s 0

/-- Return.ReleaseParamCaps: the negation of data bit 32 (the schema
default of the field is true, stored inverted). -/
def Return_ReleaseParamCaps (s : Ptr) : Bool := ! sBit s 32

/-- Return.SetReleaseParamCaps: stores the negated value at bit 32. -/
def Return_SetReleaseParamCaps (s : Ptr) (v : Bool) : Ptr := sSetBit s 32 (! v)

/-- Return.HasResults (tag 0, discriminant at offset 6). -/
def Return_HasResults (s : Ptr) : Bool :=
  if sUint16 s 6 ≠ 0 then false else sHasPtr s 0

/-- Return.HasException (tag 1, discriminant at offset 6). -/
def Return_HasException (s : Ptr) : Bool :=
  if sUint16 s 6 ≠ 1 then false else sHasPtr s 0

/-- Return.HasAcceptFromThirdParty (tag 5, discriminant at offset 6). -/
def Return_HasAcceptFromThirdParty (s : Ptr) : Bool :=
  if sUint16 s 6 ≠ 5 then false else sHasPtr s 0

/-- Finish.QuestionId: Uint32 at data offset 0. -/
def Finish_QuestionId (s : Ptr) : Nat := sUint32 s 0

/-- Finish.ReleaseResultCaps: the negation of data bit 32 (default true,
stored inverted). -/
def Finish_ReleaseResultCaps (s : Ptr) : Bool := ! sBit s 32

/-- Finish.SetReleaseResultCaps: stores the negated value at bit 32. -/
def Finish_SetReleaseResultCaps (s : Ptr) (v : Bool) : Ptr := sSetBit s 32 (! v)

/-- CapDescriptor.Which: discriminant at data offset 0. -/
def CapDescriptor_Which (s : Ptr) : Nat := sUint16 s 0

/-- CapDescriptor.HasReceiverAnswer (tag 4). -/
def CapDescriptor_HasReceiverAnswer (s : Ptr) : Bool :=
  if sUint16 s 0 ≠ 4 then false else sHasPtr s 0

/-- CapDescriptor.HasThirdPartyHosted (tag 5). -/
def CapDescriptor_HasThirdPartyHosted (s : Ptr) : Bool :=
  if sUint16 s 0 ≠ 5 then false else sHasPtr s 0

/-- PromisedAnswer.Transform: reads pointer 0 as a PromisedAnswer_Op_List. -/
def PromisedAnswer_Transform (s : Ptr) : Ptr := sPtr s 0

/-- PromisedAnswer.SetTransform: SetPtr(0, v). -/
def PromisedAnswer_SetTransform (s v : Ptr) : Ptr := sSetPtr s 0 v

/-- PromisedAnswer.NewTransform(n): allocates a composite list of n zeroed
PromisedAnswer_Op structs, stores it in pointer slot 0, and returns the
updated PromisedAnswer together with the list. -/
def PromisedAnswer_NewTransform (s : Ptr) (n : Nat) : Ptr × Ptr :=
  let l := Ptr.listP (List.replicate n newOpStruct)
  (sSetPtr s 0 l, l)

/-- PromisedAnswer_Op_List.At(i): the struct at index i (zero struct when
out of range). -/
def OpList_At (l : Ptr) (i : Nat) : Ptr :=
  match l with
  | Ptr.listP es => es.getD i Ptr.null
  | _ => Ptr.null

/-- PromisedAnswer_Op_List.Set(i, v): copies struct v into element i. -/
def OpList_Set (l : Ptr) (i : Nat) (v : Ptr) : Ptr :=
  match l with
  | Ptr.listP es => Ptr.listP (es.set i v)
  | x => x

/-- PromisedAnswer_Op_List.Len. -/
def OpList_Len (l : Ptr) : Nat :=
  match l with
  | Ptr.listP es => es.length
  | _ => 0

/-- PromisedAnswer_Op.Which: discriminant at data offset 0
(0 = noop, 1 = getPointerField). -/
def Op_Which (s : Ptr) : Nat := sUint16 s 0

/-- PromisedAnswer_Op.GetPointerField: Uint16 at data offset 2. -/
def Op_GetPointerField (s : Ptr) : Nat := sUint16 s 2

/-- PromisedAnswer_Op.SetGetPointerField: SetUint16(0, 1) then
SetUint16(2, v). -/
def Op_SetGetPointerField (s : Ptr) (v : Nat) : Ptr :=
  sSetUint16 (sSetUint16 s 0 1) 2 v

/-- Modelled from the spec: the frame codec (capnp Encoder/Decoder, outside
the rpc package) is lossless — an envelope received on the peer equals the
envelope committed by the sender. -/
def codecRoundTrip (m : Ptr) : Ptr := m

/- Concrete scenario of spec §8 item 1 (claim C7): a Call envelope with
questionId 7, interfaceId 0x1, methodId 2, target importedCap(3). -/

/-- The MessageTarget of the C7 scenario: importedCap(3). -/
def c7Target : Ptr := MessageTarget_SetImportedCap newMessageTargetStruct 3

/-- The Call struct of the C7 scenario. -/
def c7Call : Ptr :=
  Call_SetTarget
    (Call_SetMethodId (Call_SetInterfaceId (Call_SetQuestionId newCallStruct 7) 1) 2)
    c7Target

/-- The Message envelope of the C7 scenario. -/
def c7Msg : Ptr := Message_SetCall newMessageStruct c7Call

/- Concrete scenario of spec §8 item 4 (claim C8): a transform list of two
ops, getPointerField(0) then getPointerField(1). -/

/-- PromisedAnswer.NewTransform(2) applied to a fresh PromisedAnswer. -/
def c8Alloc : Ptr × Ptr := PromisedAnswer_NewTransform newPromisedAnswerStruct 2

/-- A PromisedAnswer_Op set to getPointerField(i). -/
def c8Op (i : Nat) : Ptr := Op_SetGetPointerField newOpStruct i

/-- The transform list with both elements set. -/
def c8TransformList : Ptr :=
  OpList_Set (OpList_Set c8Alloc.2 0 (c8Op 0)) 1 (c8Op 1)

/- Concrete streams for the close-path scenarios. -/

/-- A plain io.ReadWriteCloser implementing none of the optional
interfaces, all close calls succeeding. -/
def plainStream : Stream :=
  { hasWriteDeadline := false, hasCloseWrite := false, hasCloseRead := false,
    closeWriteErr := none, closeReadErr := none, closeErr := none }

/-- A stream with every optional interface, all close calls succeeding. -/
def fullStream : Stream :=
  { hasWriteDeadline := true, hasCloseWrite := true, hasCloseRead := true,
    closeWriteErr := none, closeReadErr := none, closeErr := none }

/-- A stream whose CloseWrite and final Close both fail, with distinct
errors. -/
def bothFailStream : Stream :=
  { hasWriteDeadline := false, hasCloseWrite := true, hasCloseRead := true,
    closeWriteErr := some (Err.io 1), closeReadErr := none,
    closeErr := some (Err.io 2) }

/-- A stream whose CloseWrite fails but whose final Close succeeds. -/
def halfFailStream : Stream :=
  { hasWriteDeadline := false, hasCloseWrite := true, hasCloseRead := true,
    closeWriteErr := some (Err.io 1), closeReadErr := none, closeErr := none }

/-- A struct whose discriminant words at byte offsets 0 and 6 both read 100
(no valid union tag of Message, Return or CapDescriptor) while pointer
slot 0 holds a valid pointer. -/
def mismatchStruct : Ptr :=
  Ptr.structP (100 + 100 * 2 ^ 48) [Ptr.structP 0 []]

/-- Reading back a bit field just written yields the written value (reduced
to the field width). -/
theorem getBits_setBits_same (off w v d : Nat) :
    getBits off w (setBits off w v d) = v % 2 ^ w := by
  unfold getBits setBits
  have hop : (0:Nat) < 2 ^ off := Nat.pos_pow_of_pos off (by norm_num)
  have h1 : d / 2 ^ (off + w) * 2 ^ (off + w) + v % 2 ^ w * 2 ^ off + d % 2 ^ off
      = 2 ^ off * (d / 2 ^ (off + w) * 2 ^ w + v % 2 ^ w) + d % 2 ^ off := by
    rw [pow_add]; ring
  rw [h1, Nat.mul_add_div hop, Nat.div_eq_of_lt (Nat.mod_lt d hop), Nat.add_zero,
    Nat.add_comm, Nat.add_mul_mod_self_right, Nat.mod_mod_of_dvd v dvd_rfl]

/-- C1 (counterexample): on a StreamTransport whose receive half is already
closed (a state reached by one CloseRecv on a fresh transport), a CloseSend
during which both the CloseWrite half-close and the final Close return
errors returns the final-close error Err.io 2, not the half-close error
Err.io 1 — contradicting the claim that the half-close error is preferred. -/
theorem closeSend_returns_final_close_error_counterexample :
    (closeRecv (newStreamTransport bothFailStream)).2.1
      = { stream := bothFailStream, closes := 2 }
    ∧ bothFailStream.closeWriteErr = some (Err.io 1)
    ∧ bothFailStream.closeErr = some (Err.io 2)
    ∧ (closeSend { stream := bothFailStream, closes := 2 }).1
        = CloseResult.ret (some (Err.io 2))
    ∧ CloseResult.ret (some (Err.io 2)) ≠ CloseResult.ret (some (Err.io 1)) := by
  refine ⟨rfl, rfl, rfl, rfl, by decide⟩

/-- C1 (amended): in the close call that observes both close bits set and
performs the final Close, if both the half-close step and the final Close
return errors the caller receives the final-close error; the half-close
error is returned only when the final Close succeeded.  Stated for
CloseSend (with the CloseWrite step) and for CloseRecv (with the
receiver-close step). -/
theorem close_error_preference (t u : StreamTransport) (e f : Err)
    (ht1 : t.closes &&& 1 ≠ 1) (ht2 : t.closes ||| 1 = 3)
    (htw : t.stream.hasCloseWrite = true)
    (htwe : t.stream.closeWriteErr = some f) (hte : t.stream.closeErr = some e)
    (hu1 : u.closes &&& 1 ≠ 1) (hu2 : u.closes ||| 1 = 3)
    (huw : u.stream.hasCloseWrite = true) (hue : u.stream.closeErr = none) :
    (closeSend t).1 = CloseResult.ret (some e)
    ∧ (closeSend u).1 = CloseResult.ret u.stream.closeWriteErr
    ∧ (∀ w : StreamTransport, w.closes &&& 2 ≠ 2 → w.closes ||| 2 = 3 →
        (∀ g : Err, w.stream.closeErr = some g →
          (closeRecv w).1 = CloseResult.ret (some g))
        ∧ (w.stream.closeErr = none →
          (closeRecv w).1 = CloseResult.ret (recvCloseRecv w.stream).1)) := by
  refine ⟨?_, ?_, ?_⟩
  · have ht1' : ¬ t.closes % 2 = 1 := by rw [← Nat.and_one_is_mod]; exact ht1
    simp [closeSend, ht1', ht2, htw, hte]
  · have hu1' : ¬ u.closes % 2 = 1 := by rw [← Nat.and_one_is_mod]; exact hu1
    simp [closeSend, hu1', hu2, huw, hue]
  · intro w hw1 hw2
    constructor
    · intro g hg
      simp [closeRecv, hw1, hw2, hg]
    · intro hg
      simp [closeRecv, hw1, hw2, hg]

/-- C1 (witness): the amended preference instantiated on concrete
transports: with both errors present the final-close error Err.io 2 is
returned, and with a failing CloseWrite but a succeeding final Close the
half-close error Err.io 1 is returned. -/
theorem close_error_preference_witness :
    (closeSend { stream := bothFailStream, closes := 2 }).1
      = CloseResult.ret (some (Err.io 2))
    ∧ (closeSend { stream := halfFailStream, closes := 2 }).1
      = CloseResult.ret (some (Err.io 1)) := by
  have h := close_error_preference
    { stream := bothFailStream, closes := 2 }
    { stream := halfFailStream, closes := 2 }
    (Err.io 2) (Err.io 1)
    (by decide) (by decide) (by decide) (by decide) (by decide)
    (by decide) (by decide) (by decide) (by decide)
  exact ⟨h.1, h.2.1.trans (by decide)⟩

/-- C2: on a stream that implements none of the optional half-close
interfaces, the very first CloseSend dereferences the nil writeCloser
interface and panics instead of returning an error — the graceful
degradation the claim (and the Go doc comment "calls CloseWrite, if
present") promises does not happen. -/
theorem closeSend_panics_without_closeWrite :
    plainStream.hasCloseWrite = false
    ∧ (closeSend (newStreamTransport plainStream)).1 = CloseResult.panic := by
  exact ⟨rfl, rfl⟩

/-- C3: a second CloseSend returns the already-closed error, performs no
stream-level close calls and leaves the close mask unchanged; a first
CloseSend on a fresh transport sets exactly bit 0, after which a CloseRecv
still succeeds (when the underlying close operations succeed) and performs
the final underlying Close; symmetrically for a second CloseRecv. -/
theorem second_close_already_closed :
    (∀ t : StreamTransport, t.closes &&& 1 = 1 →
        closeSend t = (CloseResult.ret (some sendClosedErr), t, []))
    ∧ (∀ st : Stream, (closeSend (newStreamTransport st)).2.1.closes = 1)
    ∧ (∀ t : StreamTransport, t.closes = 1 → t.stream.closeErr = none →
        t.stream.closeReadErr = none →
        (closeRecv t).1 = CloseResult.ret none ∧ Ev.closeFull ∈ (closeRecv t).2.2)
    ∧ (∀ t : StreamTransport, t.closes &&& 2 = 2 →
        closeRecv t = (CloseResult.ret (some recvClosedErr), t, []))
    ∧ (∀ st : Stream, (closeRecv (newStreamTransport st)).2.1.closes = 2) := by
  refine ⟨?_, ?_, ?_, ?_, ?_⟩
  · intro t h
    simp [closeSend, h]
  · intro st
    cases h : st.hasCloseWrite <;> simp [closeSend, newStreamTransport, h]
  · intro t h1 h2 h3
    cases h : t.stream.hasCloseRead <;>
      simp [closeRecv, recvCloseRecv, h1, h2, h3, h]
  · intro t h
    simp [closeRecv, h]
  · intro st
    cases h : st.hasCloseRead <;>
      simp [closeRecv, newStreamTransport, recvCloseRecv, h]

/-- C3 (witness): on a concrete transport over a fully capable stream, the
second CloseSend errors and changes nothing, the following CloseRecv still
returns nil and performs the final Close, and the second CloseRecv errors
without further stream-level calls. -/
theorem second_close_already_closed_witness :
    closeSend { stream := fullStream, closes := 1 }
      = (CloseResult.ret (some sendClosedErr), { stream := fullStream, closes := 1 }, [])
    ∧ (closeSend (newStreamTransport fullStream)).2.1.closes = 1
    ∧ (closeRecv { stream := fullStream, closes := 1 }).1 = CloseResult.ret none
    ∧ Ev.closeFull ∈ (closeRecv { stream := fullStream, closes := 1 }).2.2
    ∧ closeRecv { stream := fullStream, closes := 2 }
      = (CloseResult.ret (some recvClosedErr), { stream := fullStream, closes := 2 }, []) := by
  have h := second_close_already_closed
  have h3 := h.2.2.1 { stream := fullStream, closes := 1 } (by decide) (by decide) (by decide)
  exact ⟨h.1 _ (by decide), h.2.1 fullStream, h3.1, h3.2, h.2.2.2.1 _ (by decide)⟩

/-- C4: in both orders of one CloseSend and one CloseRecv on a fresh
transport (over a stream with a CloseWrite method, so that CloseSend does
not panic), the final underlying Close happens exactly once and only in
the second of the two calls — the one that observes both close bits; the
close mask only ever gains bits under either close call, and the
fully-closed state is terminal: both close calls then return already-closed
errors without touching the stream. -/
theorem full_close_exactly_once :
    (∀ st : Stream, st.hasCloseWrite = true →
      Ev.closeFull ∉ (closeSend (newStreamTransport st)).2.2
      ∧ Ev.closeFull ∈ (closeRecv ((closeSend (newStreamTransport st)).2.1)).2.2
      ∧ List.count Ev.closeFull ((closeSend (newStreamTransport st)).2.2
          ++ (closeRecv ((closeSend (newStreamTransport st)).2.1)).2.2) = 1
      ∧ (closeRecv ((closeSend (newStreamTransport st)).2.1)).2.1.closes = 3)
    ∧ (∀ st : Stream, st.hasCloseWrite = true →
      Ev.closeFull ∉ (closeRecv (newStreamTransport st)).2.2
      ∧ Ev.closeFull ∈ (closeSend ((closeRecv (newStreamTransport st)).2.1)).2.2
      ∧ List.count Ev.closeFull ((closeRecv (newStreamTransport st)).2.2
          ++ (closeSend ((closeRecv (newStreamTransport st)).2.1)).2.2) = 1
      ∧ (closeSend ((closeRecv (newStreamTransport st)).2.1)).2.1.closes = 3)
    ∧ (∀ (t : StreamTransport) (i : Nat), t.closes.testBit i = true →
        (closeSend t).2.1.closes.testBit i = true
        ∧ (closeRecv t).2.1.closes.testBit i = true)
    ∧ (∀ t : StreamTransport, t.closes = 3 →
        closeSend t = (CloseResult.ret (some sendClosedErr), t, [])
        ∧ closeRecv t = (CloseResult.ret (some recvClosedErr), t, [])) := by
  refine ⟨?_, ?_, ?_, ?_⟩
  · intro st hw
    cases h : st.hasCloseRead <;>
      simp [closeSend, closeRecv, recvCloseRecv, newStreamTransport, hw, h, List.count_cons]
  · intro st hw
    cases h : st.hasCloseRead <;>
      simp [closeSend, closeRecv, recvCloseRecv, newStreamTransport, hw, h, List.count_cons]
  · intro t i h
    have hor1 : (t.closes ||| 1).testBit i = true := by
      rw [Nat.testBit_or, h, Bool.true_or]
    have hor2 : (t.closes ||| 2).testBit i = true := by
      rw [Nat.testBit_or, h, Bool.true_or]
    constructor
    · by_cases hc : t.closes % 2 = 1
      · have hc' : t.closes &&& 1 = 1 := by rw [Nat.and_one_is_mod]; exact hc
        simp [closeSend, hc', hc, h]
      · have hc' : ¬ t.closes &&& 1 = 1 := by rw [Nat.and_one_is_mod]; exact hc
        cases hw : t.stream.hasCloseWrite <;> by_cases hd : t.closes ||| 1 = 3
        · simp [closeSend, hc, hc', hw, hd, h, hd ▸ hor1]
        · simp [closeSend, hc, hc', hw, hd, h, hor1]
        · simp [closeSend, hc, hc', hw, hd, h, hd ▸ hor1]
        · simp [closeSend, hc, hc', hw, hd, h, hor1]
    · by_cases hc : t.closes &&& 2 = 2
      · simp [closeRecv, hc, h]
      · cases hr : t.stream.hasCloseRead <;> by_cases hd : t.closes ||| 2 = 3
        · simp [closeRecv, recvCloseRecv, hc, hr, hd, h, hd ▸ hor2]
        · simp [closeRecv, recvCloseRecv, hc, hr, hd, h, hor2]
        · simp [closeRecv, recvCloseRecv, hc, hr, hd, h, hd ▸ hor2]
        · simp [closeRecv, recvCloseRecv, hc, hr, hd, h, hor2]
  · intro t h
    refine ⟨?_, ?_⟩ <;> simp [closeSend, closeRecv, h] <;> decide

/-- C4 (witness): the two orders on a concrete fully capable stream, bit
preservation at a concrete state, and terminality of the fully-closed
state. -/
theorem full_close_exactly_once_witness :
    Ev.closeFull ∉ (closeSend (newStreamTransport fullStream)).2.2
    ∧ Ev.closeFull ∈ (closeRecv ((closeSend (newStreamTransport fullStream)).2.1)).2.2
    ∧ Ev.closeFull ∉ (closeRecv (newStreamTransport fullStream)).2.2
    ∧ Ev.closeFull ∈ (closeSend ((closeRecv (newStreamTransport fullStream)).2.1)).2.2
    ∧ (closeSend { stream := fullStream, closes := 2 }).2.1.closes.testBit 1 = true
    ∧ closeSend { stream := fullStream, closes := 3 }
      = (CloseResult.ret (some sendClosedErr), { stream := fullStream, closes := 3 }, []) := by
  have h1 := full_close_exactly_once.1 fullStream (by decide)
  have h2 := full_close_exactly_once.2.1 fullStream (by decide)
  have h3 := full_close_exactly_once.2.2.1 { stream := fullStream, closes := 2 } 1 (by decide)
  have h4 := full_close_exactly_once.2.2.2 { stream := fullStream, closes := 3 } (by decide)
  exact ⟨h1.1, h1.2.1, h2.1, h2.2.1, h3.1, h4.1⟩

/-- C5: when the stream has a SetWriteDeadline method, the send closure
returned by NewMessage first sets the write deadline — to the exact
context deadline when the context carries one, to the zero time when it
does not — and only then encodes and writes the frame. -/
theorem send_deadline_propagation (t : StreamTransport) (d : Nat)
    (ae re : Option Err) (h : t.stream.hasWriteDeadline = true) :
    (newMessage t (some d) ae re).send
      = [SendEv.setWriteDeadline d, SendEv.encode]
    ∧ (newMessage t none ae re).send
      = [SendEv.setWriteDeadline 0, SendEv.encode] := by
  constructor <;> simp [newMessage, sendActions, h]

/-- C5 (witness): deadline propagation on a concrete deadline-capable
transport with deadline 42 and with no deadline. -/
theorem send_deadline_propagation_witness :
    (newMessage (newStreamTransport fullStream) (some 42) none none).send
      = [SendEv.setWriteDeadline 42, SendEv.encode]
    ∧ (newMessage (newStreamTransport fullStream) none none none).send
      = [SendEv.setWriteDeadline 0, SendEv.encode] :=
  send_deadline_propagation (newStreamTransport fullStream) 42 none none (by decide)

/-- C9: StreamTransport.NewMessage returns a nil error whatever the
discarded allocation errors were, and its cancel closure is a no-op: it
leaves the transport state (close mask, encoder) unchanged and performs no
stream-level operation. -/
theorem newMessage_nil_error_noop_cancel :
    ∀ (t : StreamTransport) (ctx : Option Nat) (ae re : Option Err),
      (newMessage t ctx ae re).err = none
      ∧ (newMessage t ctx ae re).cancelState = t
      ∧ (newMessage t ctx ae re).cancelEvents = [] :=
  fun _ _ _ _ => ⟨rfl, rfl, rfl⟩

/-- C6: a freshly allocated Return has ReleaseParamCaps true (the schema
default), SetReleaseParamCaps/ReleaseParamCaps round-trip for both
booleans, and the same holds for Finish.ReleaseResultCaps. -/
theorem releaseCaps_default_true_and_roundtrip :
    Return_ReleaseParamCaps newReturnStruct = true
    ∧ (∀ (s : Ptr) (v : Bool),
        Return_ReleaseParamCaps (Return_SetReleaseParamCaps s v) = v)
    ∧ Finish_ReleaseResultCaps newFinishStruct = true
    ∧ (∀ (s : Ptr) (v : Bool),
        Finish_ReleaseResultCaps (Finish_SetReleaseResultCaps s v) = v) := by
  refine ⟨by decide, ?_, by decide, ?_⟩ <;>
  · intro s v
    cases v <;>
      simp [Return_ReleaseParamCaps, Return_SetReleaseParamCaps,
        Finish_ReleaseResultCaps, Finish_SetReleaseResultCaps,
        sBit, sSetBit, sData, getBits_setBits_same]

/-- C7: the concrete Call envelope (questionId 7, interfaceId 1, methodId
2, target importedCap(3)) survives the lossless codec with Which() = call
(tag 2) and Call().QuestionId() = 7 (and the other fields intact), and the
union-branch setter SetCall writes the discriminant first — after the
discriminant write alone the envelope already reads Which() = call. -/
theorem call_envelope_roundtrip :
    Message_Which (codecRoundTrip c7Msg) = 2
    ∧ Call_QuestionId (Message_Call (codecRoundTrip c7Msg)) = 7
    ∧ Call_InterfaceId (Message_Call (codecRoundTrip c7Msg)) = 1
    ∧ Call_MethodId (Message_Call (codecRoundTrip c7Msg)) = 2
    ∧ MessageTarget_Which (Call_Target (Message_Call (codecRoundTrip c7Msg))) = 0
    ∧ MessageTarget_ImportedCap (Call_Target (Message_Call (codecRoundTrip c7Msg))) = 3
    ∧ (∀ m v : Ptr, Message_SetCall m v = sSetPtr (sSetUint16 m 0 2) 0 v)
    ∧ (∀ m : Ptr, Message_Which (sSetUint16 m 0 2) = 2) := by
  refine ⟨by decide, by decide, by decide, by decide, by decide, by decide,
    fun m v => rfl, fun m => ?_⟩
  simp [Message_Which, sUint16, sSetUint16, sData, getBits_setBits_same]

/-- C8: the transform list allocated by NewTransform(2) and filled with
getPointerField(0) at index 0 and getPointerField(1) at index 1 reads back
the same two ops in the same order; its length is 2 at creation and is
preserved by every element write (the list API has no resize). -/
theorem transform_list_roundtrip :
    Op_Which (OpList_At c8TransformList 0) = 1
    ∧ Op_GetPointerField (OpList_At c8TransformList 0) = 0
    ∧ Op_Which (OpList_At c8TransformList 1) = 1
    ∧ Op_GetPointerField (OpList_At c8TransformList 1) = 1
    ∧ OpList_Len c8Alloc.2 = 2
    ∧ OpList_Len c8TransformList = 2
    ∧ PromisedAnswer_Transform (PromisedAnswer_SetTransform c8Alloc.1 c8TransformList)
        = c8TransformList
    ∧ (∀ (l : Ptr) (i : Nat) (v : Ptr), OpList_Len (OpList_Set l i v) = OpList_Len l) := by
  refine ⟨by decide, by decide, by decide, by decide, by decide, by decide, rfl, ?_⟩
  intro l i v
  cases l <;> simp [OpList_Set, OpList_Len]

/-- C10: every Has accessor of the Message, Return and CapDescriptor unions
returns false whenever the union discriminant differs from that variant
tag, regardless of the pointer stored in the payload slot. -/
theorem has_accessors_false_on_tag_mismatch (s : Ptr) :
    (Message_Which s ≠ 0 → Message_HasUnimplemented s = false)
    ∧ (Message_Which s ≠ 1 → Message_HasAbort s = false)
    ∧ (Message_Which s ≠ 8 → Message_HasBootstrap s = false)
    ∧ (Message_Which s ≠ 2 → Message_HasCall s = false)
    ∧ (Message_Which s ≠ 3 → Message_HasReturn s = false)
    ∧ (Message_Which s ≠ 4 → Message_HasFinish s = false)
    ∧ (Message_Which s ≠ 5 → Message_HasResolve s = false)
    ∧ (Message_Which s ≠ 6 → Message_HasRelease s = false)
    ∧ (Message_Which s ≠ 13 → Message_HasDisembargo s = false)
    ∧ (Message_Which s ≠ 7 → Message_HasObsoleteSave s = false)
    ∧ (Message_Which s ≠ 9 → Message_HasObsoleteDelete s = false)
    ∧ (Message_Which s ≠ 10 → Message_HasProvide s = false)
    ∧ (Message_Which s ≠ 11 → Message_HasAccept s = false)
    ∧ (Message_Which s ≠ 12 → Message_HasJoin s = false)
    ∧ (Return_Which s ≠ 0 → Return_HasResults s = false)
    ∧ (Return_Which s ≠ 1 → Return_HasException s = false)
    ∧ (Return_Which s ≠ 5 → Return_HasAcceptFromThirdParty s = false)
    ∧ (CapDescriptor_Which s ≠ 4 → CapDescriptor_HasReceiverAnswer s = false)
    ∧ (CapDescriptor_Which s ≠ 5 → CapDescriptor_HasThirdPartyHosted s = false) := by
  refine ⟨?_, ?_, ?_, ?_, ?_, ?_, ?_, ?_, ?_, ?_, ?_, ?_, ?_, ?_, ?_, ?_, ?_, ?_, ?_⟩ <;>
  · intro h
    simp only [Message_Which, Return_Which, CapDescriptor_Which] at h
    simp [Message_HasUnimplemented, Message_HasAbort, Message_HasBootstrap,
      Message_HasCall, Message_HasReturn, Message_HasFinish, Message_HasResolve,
      Message_HasRelease, Message_HasDisembargo, Message_HasObsoleteSave,
      Message_HasObsoleteDelete, Message_HasProvide, Message_HasAccept,
      Message_HasJoin, Return_HasResults, Return_HasException,
      Return_HasAcceptFromThirdParty, CapDescriptor_HasReceiverAnswer,
      CapDescriptor_HasThirdPartyHosted, h]

/-- C10 (witness): on a concrete struct whose discriminant words read 100
at both union discriminant offsets while a valid payload pointer is
present, every Has accessor of the three unions returns false. -/
theorem has_accessors_false_on_tag_mismatch_witness :
    sHasPtr mismatchStruct 0 = true
    ∧ Message_HasUnimplemented mismatchStruct = false
    ∧ Message_HasAbort mismatchStruct = false
    ∧ Message_HasBootstrap mismatchStruct = false
    ∧ Message_HasCall mismatchStruct = false
    ∧ Message_HasReturn mismatchStruct = false
    ∧ Message_HasFinish mismatchStruct = false
    ∧ Message_HasResolve mismatchStruct = false
    ∧ Message_HasRelease mismatchStruct = false
    ∧ Message_HasDisembargo mismatchStruct = false
    ∧ Message_HasObsoleteSave mismatchStruct = false
    ∧ Message_HasObsoleteDelete mismatchStruct = false
    ∧ Message_HasProvide mismatchStruct = false
    ∧ Message_HasAccept mismatchStruct = false
    ∧ Message_HasJoin mismatchStruct = false
    ∧ Return_HasResults mismatchStruct = false
    ∧ Return_HasException mismatchStruct = false
    ∧ Return_HasAcceptFromThirdParty mismatchStruct = false
    ∧ CapDescriptor_HasReceiverAnswer mismatchStruct = false
    ∧ CapDescriptor_HasThirdPartyHosted mismatchStruct = false := by
  have h := has_accessors_false_on_tag_mismatch mismatchStruct
  exact ⟨by decide, h.1 (by decide), h.2.1 (by decide), h.2.2.1 (by decide),
    h.2.2.2.1 (by decide), h.2.2.2.2.1 (by decide), h.2.2.2.2.2.1 (by decide),
    h.2.2.2.2.2.2.1 (by decide), h.2.2.2.2.2.2.2.1 (by decide),
    h.2.2.2.2.2.2.2.2.1 (by decide), h.2.2.2.2.2.2.2.2.2.1 (by decide),
    h.2.2.2.2.2.2.2.2.2.2.1 (by decide), h.2.2.2.2.2.2.2.2.2.2.2.1 (by decide),
    h.2.2.2.2.2.2.2.2.2.2.2.2.1 (by decide),
    h.2.2.2.2.2.2.2.2.2.2.2.2.2.1 (by decide),
    h.2.2.2.2.2.2.2.2.2.2.2.2.2.2.1 (by decide),
    h.2.2.2.2.2.2.2.2.2.2.2.2.2.2.2.1 (by decide),
    h.2.2.2.2.2.2.2.2.2.2.2.2.2.2.2.2.1 (by decide),
    h.2.2.2.2.2.2.2.2.2.2.2.2.2.2.2.2.2.1 (by decide),
    h.2.2.2.2.2.2.2.2.2.2.2.2.2.2.2.2.2.2 (by decide)⟩

end Capnp
